import Mathlib

/-!
Verification development for the Voice_Agent_Twilio repository.

The repository contains two FastAPI endpoint files, `backend/main.py` and
`voicecallendpoint/main.py`, each with a `process_speech` webhook handler that
drives the per-turn voice pipeline: input validation, (in the backend file) a
recognition-failure sentinel check, conversation-history retrieval, an LLM
completion call with error classification, text-to-speech synthesis with a
fallback, and structured JSON event logging.

The definitions below are a shallow embedding of that code.  External
collaborators (the Groq completion API, gTTS synthesis, the pydub transcode,
the file system write of the JSON log) are modelled as oracle parameters that
supply each collaborator's outcome for the one call the code makes; everything
the code itself computes (string trimming/lowercasing, sentinel matching,
history truncation, event construction, branch structure) is embedded
faithfully.
-/

namespace VoiceAgent

/-! ### Python string primitives used by the source -/

/-- Characters removed by Python's `str.strip()` with no argument. -/
def pyIsSpace (c : Char) : Bool :=
  c == ' ' || c == '\t' || c == '\n' || c == '\r' || c == '\x0b' || c == '\x0c'

def pyStripList (l : List Char) : List Char :=
  ((l.dropWhile pyIsSpace).reverse.dropWhile pyIsSpace).reverse

/-- Python `s.strip()`. -/
def pyStrip (s : String) : String := ⟨pyStripList s.data⟩

/-- Python `s.lower()` (ASCII case mapping, which covers every string the
sentinel comparison is applied to). -/
def pyLower (s : String) : String := ⟨s.data.map Char.toLower⟩

/-- `listStartsWith pat l` holds when `pat` is an initial segment of `l`. -/
def listStartsWith : List Char → List Char → Bool
  | [], _ => true
  | _ :: _, [] => false
  | a :: as, b :: bs => a == b && listStartsWith as bs

/-- `listHasSub pat l`: `pat` occurs as a contiguous run inside `l`
(Python's `pat in l` on strings). -/
def listHasSub (pat : List Char) : List Char → Bool
  | [] => pat.isEmpty
  | c :: cs => listStartsWith pat (c :: cs) || listHasSub pat cs

/-- Python `pat in s` for strings. -/
def strHasSub (s pat : String) : Bool := listHasSub pat.data s.data

/-- Python `s.replace(pat, rep)` on character lists (leftmost,
non-overlapping). -/
def listReplace (pat rep : List Char) (s : List Char) : List Char :=
  match s with
  | [] => []
  | c :: cs =>
    if 0 < pat.length ∧ listStartsWith pat (c :: cs) = true then
      rep ++ listReplace pat rep (List.drop (pat.length - 1) cs)
    else
      c :: listReplace pat rep cs
termination_by s.length
decreasing_by
  all_goals simp_all [List.length_drop]
  omega

/-- Python `s.replace(pat, rep)`. -/
def pyReplace (s pat rep : String) : String := ⟨listReplace pat.data rep.data s.data⟩

/-- Python `os.path.basename` for the slash-separated paths the code builds. -/
def pyBasename (s : String) : String :=
  ⟨(s.data.reverse.takeWhile (fun c => c != '/')).reverse⟩

/-- Python `s.rstrip("/")`. -/
def pyRstripSlashes (s : String) : String :=
  ⟨(s.data.reverse.dropWhile (fun c => c == '/')).reverse⟩

/-- Python `l[-n:]`: the suffix of the last `n` elements. -/
def takeLast {α : Type} (n : Nat) (l : List α) : List α := l.drop (l.length - n)

/-! ### Data model -/

/-- One chat message: a role (`"system"` / `"user"` / `"assistant"`) and text. -/
structure Msg where
  role : String
  content : String
deriving DecidableEq

abbrev History := List Msg

/-- `SYSTEM_PROMPT` from `backend/main.py` line 37; the same text appears
inline in `voicecallendpoint/main.py` line 107. -/
def SYSTEM_PROMPT : String := "You are a helpful AI assistant. Keep responses concise."

/-- `CONVERSATION_HISTORY_LIMIT` from `backend/main.py` line 40; the
voicecallendpoint file uses the literal `10` at line 191. -/
def CONVERSATION_HISTORY_LIMIT : Nat := 10

def systemMsg : Msg := ⟨"system", SYSTEM_PROMPT⟩

/-- The per-call conversation store (`conversations` dict in both files),
modelled as an association list whose lookup returns the most recent binding:
`storeSet` prepends, `List.lookup` finds the first match, which matches Python
dict read/update semantics. -/
abbrev Store := List (String × History)

def storeSet (s : Store) (c : String) (h : History) : Store := (c, h) :: s

/-- `conversations.get(call_sid, [])`, the history-retrieval step used by both
`process_speech` implementations. -/
def getHistory (s : Store) (c : String) : History := (s.lookup c).getD []

/-- The store mutation performed by `incoming_call` in both files:
`conversations[CallSid] = [{"role": "system", "content": SYSTEM_PROMPT}]`. -/
def incomingCall (s : Store) (c : String) : Store := storeSet s c [systemMsg]

/-- The store mutation at `backend/main.py` line 420 and
`voicecallendpoint/main.py` line 191:
`conversations[call_sid] = messages[-CONVERSATION_HISTORY_LIMIT:]`. -/
def commitHistory (s : Store) (c : String) (h : History) : Store :=
  storeSet s c (takeLast CONVERSATION_HISTORY_LIMIT h)

/-- Folding a sequence of commits for one call identifier. -/
def commitSeq (s : Store) (c : String) (hs : List History) : Store :=
  hs.foldl (fun st h => commitHistory st c h) s

/-! ### Structured event log -/

/-- One `PipelineEvent` as built by `JSONLogger.log_event`: the event category,
the (nullable) call identifier and the step label.  The wall-clock timestamp
and duration fields and the free-form payload are not embeddable and no claim
depends on their values. -/
structure PEvent where
  eventType : String
  callSid : Option String
  step : String
deriving DecidableEq

/-- `JSONLogger.log_event` (`backend/main.py` lines 84-98,
`voicecallendpoint/main.py` lines 52-64): builds the entry, appends it to the
in-memory `self.logs`, calls `save_logs` — whose file write is wrapped in
`try/except`, so its success or failure (`writeOk`) cannot affect the result —
and returns the entry. -/
def logEvent (logs : List PEvent) (entry : PEvent) (writeOk : Bool) :
    List PEvent × PEvent :=
  (logs ++ [entry], entry)

/-! ### Completion Gateway (`get_llm_response`, backend/main.py lines 120-148) -/

inductive LlmFailure where
  /-- `raise TimeoutError(f"LLM request timed out: {str(e)}")` -/
  | timeoutFail (msg : String)
  /-- bare `raise`: the original exception with its message propagates -/
  | completionFail (msg : String)
deriving DecidableEq

/-- The classification test at `backend/main.py` line 144:
`"timeout" in error_str or "timed out" in error_str or "connection" in
error_str` where `error_str = str(e).lower()`. -/
def timeoutIndicator (e : String) : Bool :=
  strHasSub (pyLower e) "timeout" || strHasSub (pyLower e) "timed out" ||
    strHasSub (pyLower e) "connection"

/-- `get_llm_response`: a single completion attempt (`attempt` is the oracle
outcome of the one Groq API call: the raw message content, or the raised
exception's text).  On success it returns `content.strip()`; on failure it
classifies per `timeoutIndicator` and re-raises. -/
def getLlmResponse (attempt : Except String String) : Except LlmFailure String :=
  match attempt with
  | .ok content => .ok (pyStrip content)
  | .error e =>
    if timeoutIndicator e then .error (.timeoutFail ("LLM request timed out: " ++ e))
    else .error (.completionFail e)

/-! ### Speech Synthesis Adapter (`generate_tts_audio`, backend/main.py 151-174) -/

def AUDIO_DIR : String := "audio_files"

/-- `generate_tts_audio text call_sid`: builds
`{AUDIO_DIR}/output/tts_{call_sid}_{os.urandom(4).hex()}.mp3`, saves the gTTS
mp3 (oracle `synthOk`), transcodes to wav via pydub (oracle `transcodeOk`,
path `mp3_path.replace(".mp3", ".wav")`), returning `(wav_path, mp3_path)`;
the whole body is wrapped in `try/except` returning `(None, None)` on any
failure. -/
def generateTtsAudio (synthOk transcodeOk : Bool) (callSid randHex : String) :
    Option String × Option String :=
  if synthOk then
    let mp3Path := AUDIO_DIR ++ "/output/tts_" ++ callSid ++ "_" ++ randHex ++ ".mp3"
    if transcodeOk then
      (some (pyReplace mp3Path ".mp3" ".wav"), some mp3Path)
    else (none, none)
  else (none, none)

/-! ### Turn Pipeline outcome -/

/-- The next-action directive the pipeline's markup response encodes. -/
inductive Directive where
  | repromptNoSpeech
  | repromptSttFailure
  | playAudio
  | speakTextFallback
deriving DecidableEq

/-- The `TurnOutcome` of one `process_speech` invocation: the directive, the
audio URL handed to `response.play` when one exists, and the text that was or
would be spoken (`response.say` argument, or the text behind the played
audio). -/
structure TurnOutcome where
  directive : Directive
  audioRef : Option String
  replyText : String
deriving DecidableEq

/-- Everything one `process_speech` invocation produces: the outcome, the
conversation store after the turn, the `PipelineEvent`s it appended in order,
the turn number it computed (absent on the early-return branches, which never
compute one), and whether control reached the completion / synthesis calls. -/
structure TurnResult where
  outcome : TurnOutcome
  store : Store
  events : List PEvent
  turnNum : Option Int
  calledLlm : Bool
  calledTts : Bool
deriving DecidableEq

/-- The audio URL both files derive from the wav path:
`str(request.base_url).rstrip("/") + "/api/voice/audio/" +
os.path.basename(wav_path)`. -/
def mkAudioUrl (baseUrl wavPath : String) : String :=
  pyRstripSlashes baseUrl ++ "/api/voice/audio/" ++ pyBasename wavPath

/-- `response.say` text of the backend no-speech branch (line 342). -/
def noSpeechPromptB : String := "I didn't hear anything. Please speak again."

/-- `response.say` text of the backend sentinel branch (line 369). -/
def sttFailurePromptB : String := "I'm having trouble understanding. Please try again."

/-- Fixed apology substituted on `TimeoutError` (backend line 441). -/
def timeoutApology : String := "I apologize, but the request timed out. Please try again."

/-- The sentinel list at `backend/main.py` line 354. -/
def sttSentinels : List String := ["", "error", "failed", "timeout"]

/-! ### Turn Pipeline, backend implementation
(`process_speech`, backend/main.py lines 293-550) -/

/-- `process_speech` from `backend/main.py`.  Oracle parameters: `llm` is the
outcome of the single Groq call inside `get_llm_response` (raw content or
exception text), `tts` is the wav path `generate_tts_audio` returns (`none`
when it returned `(None, None)`), `baseUrl` is `str(request.base_url)`.

Control flow copied from the source: (1) `if not SpeechResult or
len(SpeechResult.strip()) < 2` → no-speech reprompt; (2) `if
SpeechResult.strip().lower() in ["", "error", "failed", "timeout"]` →
stt-failure reprompt; otherwise the main path: `speech_to_text` event, LLM
call with `llm_response`/`llm_timeout`/`llm_error` handling (commit only on
success), TTS with `text_to_speech`/`tts_error` event, `play`/`say`, final
`complete` event. -/
def processSpeechB (store : Store) (callSid speechResult : String)
    (llm : Except String String) (tts : Option String) (baseUrl : String) :
    TurnResult :=
  if speechResult = "" ∨ (pyStrip speechResult).length < 2 then
    { outcome := ⟨.repromptNoSpeech, none, noSpeechPromptB⟩
      store := store
      events := [⟨"speech_processing", some callSid, "no_speech_detected"⟩]
      turnNum := none
      calledLlm := false
      calledTts := false }
  else if pyLower (pyStrip speechResult) ∈ sttSentinels then
    { outcome := ⟨.repromptSttFailure, none, sttFailurePromptB⟩
      store := store
      events := [⟨"stt", some callSid, "stt_failure"⟩]
      turnNum := none
      calledLlm := false
      calledTts := false }
  else
    let userText := pyStrip speechResult
    let history := getHistory store callSid
    let turnNum : Int := (history.length : Int) - 1
    let messages := history ++ [⟨"user", userText⟩]
    let llmStep : String × Store × PEvent :=
      match getLlmResponse llm with
      | .ok aiResponse =>
          (aiResponse,
           commitHistory store callSid (messages ++ [⟨"assistant", aiResponse⟩]),
           ⟨"llm", some callSid, "llm_response"⟩)
      | .error (.timeoutFail _) =>
          (timeoutApology, store, ⟨"llm", some callSid, "llm_timeout"⟩)
      | .error (.completionFail e) =>
          ("I apologize, but I encountered an error: " ++ e, store,
           ⟨"llm", some callSid, "llm_error"⟩)
    let aiResponse := llmStep.1
    let ttsStep : Option String × PEvent :=
      match tts with
      | some wavPath =>
          (some (mkAudioUrl baseUrl wavPath), ⟨"tts", some callSid, "text_to_speech"⟩)
      | none => (none, ⟨"tts", some callSid, "tts_error"⟩)
    let outcome : TurnOutcome :=
      match ttsStep.1 with
      | some url => ⟨.playAudio, some url, aiResponse⟩
      | none => ⟨.speakTextFallback, none, aiResponse⟩
    { outcome := outcome
      store := llmStep.2.1
      events := [⟨"stt", some callSid, "speech_to_text"⟩, llmStep.2.2, ttsStep.2,
                 ⟨"speech_processing", some callSid, "complete"⟩]
      turnNum := some turnNum
      calledLlm := true
      calledTts := true }

/-! ### Turn Pipeline, voicecallendpoint implementation
(`process_speech`, voicecallendpoint/main.py lines 116-341) -/

/-- `process_speech` from `voicecallendpoint/main.py`.  Structural differences
from the backend copy, all faithful to the source: the no-speech branch emits
no spoken text (it only re-gathers); there is no sentinel / stt-failure
branch; the Groq call is inline and its `except` block substitutes
`f"Error: {str(e)}"` with no timeout classification and logs no `llm` event,
and the success branch logs no `llm` event either; after TTS it logs an extra
`response_sent` event before `complete`. -/
def processSpeechV (store : Store) (callSid speechResult : String)
    (llm : Except String String) (tts : Option String) (baseUrl : String) :
    TurnResult :=
  if speechResult = "" ∨ (pyStrip speechResult).length < 2 then
    { outcome := ⟨.repromptNoSpeech, none, ""⟩
      store := store
      events := [⟨"speech_processing", some callSid, "no_speech_detected"⟩]
      turnNum := none
      calledLlm := false
      calledTts := false }
  else
    let userText := pyStrip speechResult
    let history := getHistory store callSid
    let turnNum : Int := (history.length : Int) - 1
    let messages := history ++ [⟨"user", userText⟩]
    let llmStep : String × Store :=
      match llm with
      | .ok content =>
          let aiResponse := pyStrip content
          (aiResponse,
           storeSet store callSid (takeLast 10 (messages ++ [⟨"assistant", aiResponse⟩])))
      | .error e => ("Error: " ++ e, store)
    let aiResponse := llmStep.1
    let ttsStep : Option String × PEvent :=
      match tts with
      | some wavPath =>
          (some (mkAudioUrl baseUrl wavPath), ⟨"tts", some callSid, "text_to_speech"⟩)
      | none => (none, ⟨"tts", some callSid, "tts_error"⟩)
    let outcome : TurnOutcome :=
      match ttsStep.1 with
      | some url => ⟨.playAudio, some url, aiResponse⟩
      | none => ⟨.speakTextFallback, none, aiResponse⟩
    { outcome := outcome
      store := llmStep.2
      events := [⟨"stt", some callSid, "speech_to_text"⟩, ttsStep.2,
                 ⟨"speech_processing", some callSid, "response_sent"⟩,
                 ⟨"speech_processing", some callSid, "complete"⟩]
      turnNum := some turnNum
      calledLlm := true
      calledTts := true }

/-! ### Helper lemmas -/

lemma pyLower_length (s : String) : (pyLower s).length = s.length := by
  show (s.data.map Char.toLower).length = s.data.length
  simp

lemma not_noSpeech_of_len {t : String} (h : 2 ≤ (pyStrip t).length) :
    ¬(t = "" ∨ (pyStrip t).length < 2) := by
  rintro (rfl | hlt)
  · exact absurd h (by decide)
  · omega

lemma getHistory_storeSet (s : Store) (c : String) (h : History) :
    getHistory (storeSet s c h) c = h := by
  simp [getHistory, storeSet, List.lookup]

lemma getHistory_commitHistory (s : Store) (c : String) (h : History) :
    getHistory (commitHistory s c h) c = takeLast CONVERSATION_HISTORY_LIMIT h := by
  simp [commitHistory, getHistory_storeSet]

lemma getHistory_commitSeq (hs : List History) :
    ∀ (s : Store) (c : String) (h : History),
      getHistory (commitSeq (commitHistory s c h) c hs) c =
        takeLast CONVERSATION_HISTORY_LIMIT (hs.getLastD h) := by
  induction hs with
  | nil => intro s c h; simp [commitSeq, getHistory_commitHistory]
  | cons h2 rest ih =>
      intro s c h
      have hstep : commitSeq (commitHistory s c h) c (h2 :: rest) =
          commitSeq (commitHistory (commitHistory s c h) c h2) c rest := rfl
      rw [hstep, ih (commitHistory s c h) c h2, List.getLastD_cons]

/-! ### C10 -/

/-- C10: `JSONLogger.log_event` appends exactly one entry to the in-memory
log, leaving all earlier entries unchanged (the old log is the prefix of the
new one), returns the entry it built, and its result is independent of whether
the file write in `save_logs` succeeds, since that failure is swallowed by
`try/except` — so a file-system error never aborts the turn being logged. -/
theorem log_event_appends_single_entry (logs : List PEvent) (entry : PEvent)
    (writeOk : Bool) :
    (logEvent logs entry writeOk).1 = logs ++ [entry] ∧
    (logEvent logs entry writeOk).2 = entry ∧
    (logEvent logs entry writeOk).1.take logs.length = logs ∧
    ∀ w2 : Bool, logEvent logs entry writeOk = logEvent logs entry w2 := by
  refine ⟨rfl, rfl, ?_, fun _ => rfl⟩
  simp [logEvent, List.take_left]

/-! ### C7 -/

/-- C7: `get_llm_response` either returns reply text or fails with exactly one
of the two failure kinds; it fails with `TimeoutFailure` exactly when the
underlying error text contains a timeout/connection indication ("timeout",
"timed out" or "connection", checked on the lower-cased text, hence
case-insensitively), and with `CompletionFailure` carrying the underlying
message on every other error.  The embedding consumes a single attempt
outcome, matching the source's single API call with no retry loop. -/
theorem completion_gateway_classification (attempt : Except String String) :
    ((∃ t, getLlmResponse attempt = .ok t) ∨
     (∃ m, getLlmResponse attempt = .error (.timeoutFail m)) ∨
     (∃ m, getLlmResponse attempt = .error (.completionFail m))) ∧
    (∀ s, attempt = .ok s → getLlmResponse attempt = .ok (pyStrip s)) ∧
    (∀ e, attempt = .error e →
      (((∃ m, getLlmResponse attempt = .error (.timeoutFail m)) ↔
          timeoutIndicator e = true) ∧
       (timeoutIndicator e = false →
          getLlmResponse attempt = .error (.completionFail e)))) := by
  cases attempt with
  | ok s => simp [getLlmResponse]
  | error e =>
      by_cases hi : timeoutIndicator e = true <;>
        simp_all [getLlmResponse]

/-- Witness for C7: a connection error is classified as a timeout failure, a
plain HTTP error as a completion failure carrying the original message. -/
theorem completion_gateway_classification_witness :
    getLlmResponse (.error "HTTP 500") = .error (.completionFail "HTTP 500") ∧
    (∃ m, getLlmResponse (.error "Connection reset") = .error (.timeoutFail m)) :=
  ⟨((completion_gateway_classification (.error "HTTP 500")).2.2 "HTTP 500" rfl).2
      (by decide),
   ((completion_gateway_classification (.error "Connection reset")).2.2
      "Connection reset" rfl).1.mpr (by decide)⟩

/-! ### C6 -/

/-- C6: each commit stores `messages[-CONVERSATION_HISTORY_LIMIT:]`: the
stored history has length at most the limit, equals the committed history's
suffix of that length, once the committed history exceeds the limit its
leading (system persona) entry is evicted, and after any further sequence of
commits for the same call the stored value is the suffix of the most recent
one. -/
theorem commit_truncation_invariant (s : Store) (c : String) (h : History) :
    getHistory (commitHistory s c h) c = takeLast CONVERSATION_HISTORY_LIMIT h ∧
    (getHistory (commitHistory s c h) c).length ≤ CONVERSATION_HISTORY_LIMIT ∧
    h = h.take (h.length - CONVERSATION_HISTORY_LIMIT) ++
          getHistory (commitHistory s c h) c ∧
    (∀ hd tl, h = hd :: tl → CONVERSATION_HISTORY_LIMIT < h.length →
      getHistory (commitHistory s c h) c = takeLast CONVERSATION_HISTORY_LIMIT tl) ∧
    (∀ hs : List History,
      getHistory (commitSeq (commitHistory s c h) c hs) c =
        takeLast CONVERSATION_HISTORY_LIMIT (hs.getLastD h)) := by
  refine ⟨getHistory_commitHistory s c h, ?_, ?_, ?_, fun hs => getHistory_commitSeq hs s c h⟩
  · rw [getHistory_commitHistory]
    simp only [takeLast, List.length_drop]
    omega
  · rw [getHistory_commitHistory, takeLast, List.take_append_drop]
  · rintro hd tl rfl hlen
    rw [getHistory_commitHistory]
    simp only [List.length_cons] at hlen
    have htl : CONVERSATION_HISTORY_LIMIT ≤ tl.length := by omega
    have harith : (hd :: tl).length - CONVERSATION_HISTORY_LIMIT =
        (tl.length - CONVERSATION_HISTORY_LIMIT) + 1 := by
      simp only [List.length_cons]; omega
    rw [takeLast, harith, List.drop_succ_cons, takeLast]

/-- Witness for C6: committing an 11-message history (system message plus ten
user messages) stores the last ten messages, evicting the system message. -/
theorem commit_truncation_invariant_witness :
    getHistory (commitHistory [] "CA1"
        (systemMsg :: List.replicate 10 (⟨"user", "x"⟩ : Msg))) "CA1" =
      takeLast CONVERSATION_HISTORY_LIMIT (List.replicate 10 (⟨"user", "x"⟩ : Msg)) :=
  (commit_truncation_invariant [] "CA1"
      (systemMsg :: List.replicate 10 (⟨"user", "x"⟩ : Msg))).2.2.2.1
    systemMsg (List.replicate 10 (⟨"user", "x"⟩ : Msg)) rfl (by decide)

/-! ### C2 -/

/-- C2 (amended): in the backend `process_speech`, whenever the trimmed,
lower-cased transcript equals one of the sentinels "error", "failed" or
"timeout", the invocation returns the `reprompt_stt_failure` directive, logs
exactly the `stt_failure` event, leaves the store untouched and never reaches
the Completion Gateway call. -/
theorem backend_sentinel_reprompts (store : Store) (c t : String)
    (llm : Except String String) (tts : Option String) (base : String)
    (h : pyLower (pyStrip t) ∈ (["error", "failed", "timeout"] : List String)) :
    processSpeechB store c t llm tts base =
      { outcome := ⟨.repromptSttFailure, none, sttFailurePromptB⟩
        store := store
        events := [⟨"stt", some c, "stt_failure"⟩]
        turnNum := none
        calledLlm := false
        calledTts := false } := by
  have hlen : 2 ≤ (pyStrip t).length := by
    rw [← pyLower_length (pyStrip t)]
    simp only [List.mem_cons, List.not_mem_nil, or_false] at h
    rcases h with h | h | h <;> rw [h] <;> decide
  have hs : pyLower (pyStrip t) ∈ sttSentinels := by
    simp only [sttSentinels, List.mem_cons] at *
    tauto
  unfold processSpeechB
  rw [if_neg (not_noSpeech_of_len hlen), if_pos hs]

/-- Witness for C2's theorem at the transcript `" Timeout "`, exercising the
trim and the case-insensitive sentinel match. -/
theorem backend_sentinel_reprompts_witness :
    processSpeechB [] "CA1" " Timeout " (.ok "hi") none "http://h" =
      { outcome := ⟨.repromptSttFailure, none, sttFailurePromptB⟩
        store := []
        events := [⟨"stt", some "CA1", "stt_failure"⟩]
        turnNum := none
        calledLlm := false
        calledTts := false } :=
  backend_sentinel_reprompts [] "CA1" " Timeout " (.ok "hi") none "http://h" (by decide)

/-- Counterexample for C2 as stated across both endpoint files: the
voicecallendpoint `process_speech` has no recognition-failure branch, so on
the sentinel transcript "timeout" it reaches the Completion Gateway, emits no
`stt_failure` event and does not return the `reprompt_stt_failure`
directive. -/
theorem endpoint_sentinel_reaches_completion :
    pyLower (pyStrip "timeout") ∈ sttSentinels ∧
    (processSpeechV [("CA1", [systemMsg])] "CA1" "timeout" (.ok "hi") none
        "http://h").calledLlm = true ∧
    (processSpeechV [("CA1", [systemMsg])] "CA1" "timeout" (.ok "hi") none
        "http://h").outcome.directive ≠ Directive.repromptSttFailure ∧
    ((processSpeechV [("CA1", [systemMsg])] "CA1" "timeout" (.ok "hi") none
        "http://h").events.filter (fun e => e.step == "stt_failure")) = [] := by
  decide

/-! ### C9 -/

/-- C9: in both `process_speech` implementations, an empty transcript or one
whose trimmed length is below 2 characters yields the `reprompt_no_speech`
directive, logs exactly the `no_speech_detected` event, leaves the store
untouched, and reaches neither the Completion Gateway nor the Speech
Synthesis Adapter. -/
theorem no_speech_reprompt_both (store : Store) (c t : String)
    (llm : Except String String) (tts : Option String) (base : String)
    (h : t = "" ∨ (pyStrip t).length < 2) :
    processSpeechB store c t llm tts base =
      { outcome := ⟨.repromptNoSpeech, none, noSpeechPromptB⟩
        store := store
        events := [⟨"speech_processing", some c, "no_speech_detected"⟩]
        turnNum := none
        calledLlm := false
        calledTts := false } ∧
    processSpeechV store c t llm tts base =
      { outcome := ⟨.repromptNoSpeech, none, ""⟩
        store := store
        events := [⟨"speech_processing", some c, "no_speech_detected"⟩]
        turnNum := none
        calledLlm := false
        calledTts := false } := by
  constructor
  · unfold processSpeechB
    rw [if_pos h]
  · unfold processSpeechV
    rw [if_pos h]

/-- Witness for C9 at the one-character transcript `"a"`. -/
theorem no_speech_reprompt_both_witness :
    (processSpeechB [] "CA1" "a" (.ok "hi") none "u").outcome.directive =
      Directive.repromptNoSpeech ∧
    (processSpeechV [] "CA1" "a" (.ok "hi") none "u").outcome.directive =
      Directive.repromptNoSpeech ∧
    (processSpeechB [] "CA1" "a" (.ok "hi") none "u").calledLlm = false := by
  have h := no_speech_reprompt_both [] "CA1" "a" (.ok "hi") none "u"
    (Or.inr (by decide))
  rw [h.1, h.2]
  exact ⟨rfl, rfl, rfl⟩

/-! ### C5 -/

/-- C5: when a turn reaches the completion stage and the Completion Gateway
classifies the failure as a timeout (`TimeoutError` raised by
`get_llm_response`), the backend substitutes the fixed apology-for-timeout
text as the reply, logs the `llm_timeout` event, and performs no commit: the
whole store — in particular the entry for this call identifier — is exactly
what it was before the turn. -/
theorem llm_timeout_fixed_reply_store_unchanged (store : Store) (c t e : String)
    (tts : Option String) (base : String)
    (hlen : 2 ≤ (pyStrip t).length)
    (hsent : pyLower (pyStrip t) ∉ sttSentinels)
    (htime : timeoutIndicator e = true) :
    (processSpeechB store c t (.error e) tts base).outcome.replyText =
      timeoutApology ∧
    (⟨"llm", some c, "llm_timeout"⟩ : PEvent) ∈
      (processSpeechB store c t (.error e) tts base).events ∧
    (processSpeechB store c t (.error e) tts base).store = store ∧
    getHistory (processSpeechB store c t (.error e) tts base).store c =
      getHistory store c := by
  unfold processSpeechB
  rw [if_neg (not_noSpeech_of_len hlen), if_neg hsent]
  cases tts <;> simp [getLlmResponse, htime]

/-- Witness for C5: a "Connection reset" failure on the transcript "hello"
yields the apology text and leaves the store as it was. -/
theorem llm_timeout_fixed_reply_store_unchanged_witness :
    (processSpeechB [("CA1", [systemMsg])] "CA1" "hello" (.error "Connection reset")
        none "u").outcome.replyText = timeoutApology ∧
    (processSpeechB [("CA1", [systemMsg])] "CA1" "hello" (.error "Connection reset")
        none "u").store = [("CA1", [systemMsg])] :=
  ⟨(llm_timeout_fixed_reply_store_unchanged [("CA1", [systemMsg])] "CA1" "hello"
      "Connection reset" none "u" (by decide) (by decide) (by decide)).1,
   (llm_timeout_fixed_reply_store_unchanged [("CA1", [systemMsg])] "CA1" "hello"
      "Connection reset" none "u" (by decide) (by decide) (by decide)).2.2.1⟩

/-! ### C4 -/

/-- Counterexample for C4: the code has no `get_or_init`; `process_speech`
retrieves history with `conversations.get(call_sid, [])`, so for a call
identifier never seen before the retrieved history is empty — not the
single-element persona history — and the computed turn number is −1, not 0. -/
theorem fresh_call_history_empty :
    getHistory [] "CA123" = [] ∧
    getHistory [] "CA123" ≠ [systemMsg] ∧
    (processSpeechB [] "CA123" "hello" (.ok "hi") none "http://h").turnNum =
      some (-1) := by
  decide

/-- C4 (amended): the single-element persona history exists only once the
incoming-call handler has initialized the identifier: after `incoming_call`
the stored history is exactly `[system persona]` and `process_speech` computes
turn number 0 for it; for an identifier never seen at all, the retrieval
defaults to the empty history and the computed turn number is −1. -/
theorem initialized_call_history_and_turn (store : Store) (c : String) :
    getHistory (incomingCall store c) c = [systemMsg] ∧
    (∀ t llm tts base, 2 ≤ (pyStrip t).length → pyLower (pyStrip t) ∉ sttSentinels →
      (processSpeechB (incomingCall store c) c t llm tts base).turnNum = some 0) ∧
    (store.lookup c = none →
      getHistory store c = [] ∧
      ∀ t llm tts base, 2 ≤ (pyStrip t).length → pyLower (pyStrip t) ∉ sttSentinels →
        (processSpeechB store c t llm tts base).turnNum = some (-1)) := by
  have hinit : getHistory (incomingCall store c) c = [systemMsg] :=
    getHistory_storeSet store c [systemMsg]
  refine ⟨hinit, ?_, ?_⟩
  · intro t llm tts base hlen hsent
    unfold processSpeechB
    rw [if_neg (not_noSpeech_of_len hlen), if_neg hsent]
    cases hllm : getLlmResponse llm <;> cases tts <;>
      simp_all [hinit]
  · intro hnone
    have hempty : getHistory store c = [] := by simp [getHistory, hnone]
    refine ⟨hempty, ?_⟩
    intro t llm tts base hlen hsent
    unfold processSpeechB
    rw [if_neg (not_noSpeech_of_len hlen), if_neg hsent]
    cases hllm : getLlmResponse llm <;> cases tts <;>
      simp_all [hempty]

/-- Witness for C4's amended theorem: after `incoming_call` for the fresh
identifier "CA9", the stored history is the persona message and a normal turn
computes turn number 0; on the untouched empty store the same turn computes
turn number −1. -/
theorem initialized_call_history_and_turn_witness :
    getHistory (incomingCall [] "CA9") "CA9" = [systemMsg] ∧
    (processSpeechB (incomingCall [] "CA9") "CA9" "hello" (.ok "hi") none
        "u").turnNum = some 0 ∧
    (processSpeechB [] "CA9" "hello" (.ok "hi") none "u").turnNum = some (-1) :=
  ⟨(initialized_call_history_and_turn [] "CA9").1,
   (initialized_call_history_and_turn [] "CA9").2.1 "hello" (.ok "hi") none "u"
     (by decide) (by decide),
   ((initialized_call_history_and_turn [] "CA9").2.2 rfl).2 "hello" (.ok "hi")
     none "u" (by decide) (by decide)⟩

/-! ### C8 -/

/-- C8: `generate_tts_audio` returns null (`(None, None)`) whenever either the
synthesis or the transcode stage fails, instead of raising; and in the
backend Turn Pipeline a null synthesis result yields the
`speak_text_fallback` directive with no audio reference, while a returned wav
reference yields `play_audio` carrying the URL derived from exactly that
reference. -/
theorem tts_failure_null_and_pipeline_fallback
    (synthOk transcodeOk : Bool) (cs r : String)
    (store : Store) (c t : String) (llm : Except String String) (base : String)
    (hlen : 2 ≤ (pyStrip t).length)
    (hsent : pyLower (pyStrip t) ∉ sttSentinels) :
    (¬(synthOk = true ∧ transcodeOk = true) →
      generateTtsAudio synthOk transcodeOk cs r = (none, none)) ∧
    ((processSpeechB store c t llm none base).outcome.directive =
        Directive.speakTextFallback ∧
     (processSpeechB store c t llm none base).outcome.audioRef = none) ∧
    (∀ wav, (processSpeechB store c t llm (some wav) base).outcome.directive =
        Directive.playAudio ∧
      (processSpeechB store c t llm (some wav) base).outcome.audioRef =
        some (mkAudioUrl base wav)) := by
  refine ⟨?_, ?_, ?_⟩
  · intro hfail
    cases synthOk <;> cases transcodeOk <;> simp_all [generateTtsAudio]
  · unfold processSpeechB
    rw [if_neg (not_noSpeech_of_len hlen), if_neg hsent]
    cases hllm : getLlmResponse llm <;> simp_all
  · intro wav
    unfold processSpeechB
    rw [if_neg (not_noSpeech_of_len hlen), if_neg hsent]
    cases hllm : getLlmResponse llm <;> simp_all

/-- Witness for C8: a transcode failure returns null; with a null synthesis
result the concrete turn falls back to provider speech, and with a wav
reference it plays the derived URL. -/
theorem tts_failure_null_and_pipeline_fallback_witness :
    generateTtsAudio true false "CA1" "ab" = (none, none) ∧
    (processSpeechB [] "CA1" "hello" (.ok "hi") none "http://h").outcome.directive =
      Directive.speakTextFallback ∧
    (processSpeechB [] "CA1" "hello" (.ok "hi")
        (some "audio_files/output/tts_CA1_ab.wav") "http://h").outcome.audioRef =
      some (mkAudioUrl "http://h" "audio_files/output/tts_CA1_ab.wav") :=
  ⟨(tts_failure_null_and_pipeline_fallback true false "CA1" "ab" [] "CA1" "hello"
      (.ok "hi") "http://h" (by decide) (by decide)).1 (by simp),
   (tts_failure_null_and_pipeline_fallback true false "CA1" "ab" [] "CA1" "hello"
      (.ok "hi") "http://h" (by decide) (by decide)).2.1.1,
   ((tts_failure_null_and_pipeline_fallback true false "CA1" "ab" [] "CA1" "hello"
      (.ok "hi") "http://h" (by decide) (by decide)).2.2
      "audio_files/output/tts_CA1_ab.wav").2⟩

/-! ### C1 -/

/-- Counterexample for C1: on the transcript "error" with identical store and
identical collaborator behaviour, the backend `process_speech` takes its
sentinel branch (directive `reprompt_stt_failure`, store untouched, no reply
from the model) while the voicecallendpoint `process_speech` — which has no
such branch — runs the completion and commits the exchange: different
directive, different reply text, different committed history. -/
theorem turn_pipelines_not_equivalent :
    (processSpeechB [("CA1", [systemMsg])] "CA1" "error" (.ok "hi") none
        "http://h").outcome.directive = Directive.repromptSttFailure ∧
    (processSpeechV [("CA1", [systemMsg])] "CA1" "error" (.ok "hi") none
        "http://h").outcome.directive = Directive.speakTextFallback ∧
    (processSpeechB [("CA1", [systemMsg])] "CA1" "error" (.ok "hi") none
        "http://h").store = [("CA1", [systemMsg])] ∧
    (processSpeechV [("CA1", [systemMsg])] "CA1" "error" (.ok "hi") none
        "http://h").store ≠ [("CA1", [systemMsg])] ∧
    (processSpeechB [("CA1", [systemMsg])] "CA1" "error" (.ok "hi") none
        "http://h").outcome.replyText ≠
      (processSpeechV [("CA1", [systemMsg])] "CA1" "error" (.ok "hi") none
        "http://h").outcome.replyText := by
  decide

/-- C1 (amended): the two `process_speech` implementations agree only away
from their divergences: for every transcript whose trimmed length is at least
2 and whose trimmed lower-cased form is not a recognition-failure sentinel,
given identical store contents and identical collaborator outcomes they
produce the same committed store, the same directive, the same audio
reference and the same turn number — and, when the completion succeeds, the
same reply text (on completion failure their substituted texts differ). -/
theorem turn_pipelines_agree_off_sentinel (store : Store) (c t : String)
    (llm : Except String String) (tts : Option String) (base : String)
    (hlen : 2 ≤ (pyStrip t).length)
    (hsent : pyLower (pyStrip t) ∉ sttSentinels) :
    (processSpeechB store c t llm tts base).store =
      (processSpeechV store c t llm tts base).store ∧
    (processSpeechB store c t llm tts base).outcome.directive =
      (processSpeechV store c t llm tts base).outcome.directive ∧
    (processSpeechB store c t llm tts base).outcome.audioRef =
      (processSpeechV store c t llm tts base).outcome.audioRef ∧
    (processSpeechB store c t llm tts base).turnNum =
      (processSpeechV store c t llm tts base).turnNum ∧
    (∀ s, llm = .ok s →
      (processSpeechB store c t llm tts base).outcome.replyText =
        (processSpeechV store c t llm tts base).outcome.replyText) := by
  unfold processSpeechB processSpeechV
  rw [if_neg (not_noSpeech_of_len hlen), if_neg hsent,
    if_neg (not_noSpeech_of_len hlen)]
  cases llm with
  | ok s =>
      cases tts <;>
        simp [getLlmResponse, commitHistory, CONVERSATION_HISTORY_LIMIT, storeSet]
  | error e =>
      by_cases hi : timeoutIndicator e = true <;> cases tts <;>
        simp [getLlmResponse, hi]

/-- Witness for C1's amended theorem: a successful turn on "hello" gives
identical committed store, directive and reply text in the two
implementations. -/
theorem turn_pipelines_agree_off_sentinel_witness :
    (processSpeechB [("CA1", [systemMsg])] "CA1" "hello" (.ok "hi")
        (some "w.wav") "http://h").store =
      (processSpeechV [("CA1", [systemMsg])] "CA1" "hello" (.ok "hi")
        (some "w.wav") "http://h").store ∧
    (processSpeechB [("CA1", [systemMsg])] "CA1" "hello" (.ok "hi")
        (some "w.wav") "http://h").outcome.replyText =
      (processSpeechV [("CA1", [systemMsg])] "CA1" "hello" (.ok "hi")
        (some "w.wav") "http://h").outcome.replyText :=
  ⟨(turn_pipelines_agree_off_sentinel [("CA1", [systemMsg])] "CA1" "hello"
      (.ok "hi") (some "w.wav") "http://h" (by decide) (by decide)).1,
   (turn_pipelines_agree_off_sentinel [("CA1", [systemMsg])] "CA1" "hello"
      (.ok "hi") (some "w.wav") "http://h" (by decide) (by decide)).2.2.2.2
     "hi" rfl⟩

/-! ### C3 -/

/-- Counterexample for C3: in the voicecallendpoint `process_speech`, a turn
that reaches and completes the completion stage (the exchange is committed and
the model's reply is the outcome text) appends no event for that stage — no
event has category "llm" or an llm step label, on the success branch shown
here and likewise on the failure branch, which only writes to the terminal
logger. -/
theorem endpoint_completion_stage_unlogged :
    (processSpeechV [("CA1", [systemMsg])] "CA1" "hello" (.ok "hi")
        (some "w.wav") "http://h").outcome.replyText = "hi" ∧
    (processSpeechV [("CA1", [systemMsg])] "CA1" "hello" (.ok "hi")
        (some "w.wav") "http://h").store ≠ [("CA1", [systemMsg])] ∧
    ((processSpeechV [("CA1", [systemMsg])] "CA1" "hello" (.ok "hi")
        (some "w.wav") "http://h").events.filter
      (fun e => e.eventType == "llm" || e.step == "llm_response" ||
        e.step == "llm_timeout" || e.step == "llm_error")) = [] := by
  decide

/-- C3 (amended): the backend `process_speech` logs, for every stage it
reaches, the event of the branch that stage takes: `no_speech_detected` when
input validation fails, `stt_failure` when the recognition-failure check
fails, and on the main path (both checks passed) the `speech_to_text` record
plus exactly one of `llm_response`/`llm_timeout`/`llm_error` for the
completion stage, one of `text_to_speech`/`tts_error` for the synthesis
stage, and the final `complete` event.  The voicecallendpoint implementation
violates the unified claim: none of its invocations ever logs an event of the
completion stage's category. -/
theorem backend_stage_events_cover (store : Store) (c t : String)
    (llm : Except String String) (tts : Option String) (base : String) :
    ((t = "" ∨ (pyStrip t).length < 2) →
      (⟨"speech_processing", some c, "no_speech_detected"⟩ : PEvent) ∈
        (processSpeechB store c t llm tts base).events) ∧
    (¬(t = "" ∨ (pyStrip t).length < 2) → pyLower (pyStrip t) ∈ sttSentinels →
      (⟨"stt", some c, "stt_failure"⟩ : PEvent) ∈
        (processSpeechB store c t llm tts base).events) ∧
    (¬(t = "" ∨ (pyStrip t).length < 2) → pyLower (pyStrip t) ∉ sttSentinels →
      ((⟨"stt", some c, "speech_to_text"⟩ : PEvent) ∈
          (processSpeechB store c t llm tts base).events ∧
       ((⟨"llm", some c, "llm_response"⟩ : PEvent) ∈
          (processSpeechB store c t llm tts base).events ∨
        (⟨"llm", some c, "llm_timeout"⟩ : PEvent) ∈
          (processSpeechB store c t llm tts base).events ∨
        (⟨"llm", some c, "llm_error"⟩ : PEvent) ∈
          (processSpeechB store c t llm tts base).events) ∧
       ((⟨"tts", some c, "text_to_speech"⟩ : PEvent) ∈
          (processSpeechB store c t llm tts base).events ∨
        (⟨"tts", some c, "tts_error"⟩ : PEvent) ∈
          (processSpeechB store c t llm tts base).events) ∧
       (⟨"speech_processing", some c, "complete"⟩ : PEvent) ∈
          (processSpeechB store c t llm tts base).events)) ∧
    (∀ e ∈ (processSpeechV store c t llm tts base).events, e.eventType ≠ "llm") := by
  refine ⟨?_, ?_, ?_, ?_⟩
  · intro h
    unfold processSpeechB
    rw [if_pos h]
    simp
  · intro hv hs
    unfold processSpeechB
    rw [if_neg hv, if_pos hs]
    simp
  · intro hv hs
    unfold processSpeechB
    rw [if_neg hv, if_neg hs]
    cases hllm : getLlmResponse llm with
    | ok ai => cases tts <;> simp
    | error f => cases f <;> cases tts <;> simp
  · by_cases hv : t = "" ∨ (pyStrip t).length < 2
    · unfold processSpeechV
      rw [if_pos hv]
      intro e he
      simp only [List.mem_singleton] at he
      subst he
      simp
    · unfold processSpeechV
      rw [if_neg hv]
      cases llm <;> cases tts <;>
        · intro e he
          simp only [List.mem_cons, List.not_mem_nil, or_false] at he
          rcases he with rfl | rfl | rfl | rfl <;> simp

/-- Witness for C3's amended theorem: on a concrete main-path turn with a
successful completion, the backend log contains an event of the completion
stage's category. -/
theorem backend_stage_events_cover_witness :
    (⟨"llm", some "CA1", "llm_response"⟩ : PEvent) ∈
      (processSpeechB [] "CA1" "hello" (.ok "hi") none "u").events ∨
    (⟨"llm", some "CA1", "llm_timeout"⟩ : PEvent) ∈
      (processSpeechB [] "CA1" "hello" (.ok "hi") none "u").events ∨
    (⟨"llm", some "CA1", "llm_error"⟩ : PEvent) ∈
      (processSpeechB [] "CA1" "hello" (.ok "hi") none "u").events :=
  ((backend_stage_events_cover [] "CA1" "hello" (.ok "hi") none "u").2.2.1
    (by decide) (by decide)).2.1

end VoiceAgent
